import Mathlib

/-!
Verification development for the data-service of the Ada-Analytics repository.

The definitions in this file are a shallow embedding of the Python source
files `microservices/data-service/helpers.py`, `helper_functions.py` and
`main.py`.  Machine integers are modelled as `Nat`/`Int` (Python integers
are unbounded); Python `int(a / b)` on non-negative integers is modelled as
`Nat` floor division; exceptions are modelled with `Except`/`Option`; the
mutable module-level dictionaries are modelled by explicit state passing.
Clock-dependent values (the `datetime.today()` based start/end dates and
`datetime.now()` timestamps) are modelled by parameters where they matter and
by the day-count they are derived from otherwise.
-/

namespace DataService

/-- Decidable equality for Except results, so that concrete runs of the
embedded functions can be evaluated inside proofs. -/
instance {ε α : Type} [DecidableEq ε] [DecidableEq α] : DecidableEq (Except ε α) := fun a b =>
  match a, b with
  | .error e, .error f =>
    if h : e = f then .isTrue (h ▸ rfl) else .isFalse (fun hc => h (Except.error.inj hc))
  | .ok x, .ok y =>
    if h : x = y then .isTrue (h ▸ rfl) else .isFalse (fun hc => h (Except.ok.inj hc))
  | .error _, .ok _ => .isFalse (fun hc => Except.noConfusion hc)
  | .ok _, .error _ => .isFalse (fun hc => Except.noConfusion hc)

/-- Canonical time units of the service: minute, hour, day, week, month,
year.  These are the unit strings produced by `parse_timeframe` and consumed
by `calculate_expected_candles` and `resolve_lookback_window`. -/
inductive TUnit where
  | minute
  | hour
  | day
  | week
  | month
  | year
deriving DecidableEq, Repr

/-- Constant `MAX_CANDLE_LIMIT = 300` from helpers.py. -/
def MAX_CANDLE_LIMIT : Nat := 300

/-- Embedding of `calculate_expected_candles` (helpers.py, lines 118-157).
The `target_unit is None` default never applies at the call sites we model
(the planner always passes a target unit), so the target unit is a plain
argument here.  Python computes `max(1, int(total_minutes /
target_minutes_per_candle))`; for the non-negative integers involved this is
`Nat` floor division. -/
def calculate_expected_candles (original_quantity : Nat) (original_unit : TUnit)
    (target_mult : Nat) (target_unit : TUnit) : Nat :=
  let total_minutes :=
    match original_unit with
    | .minute => original_quantity
    | .hour   => original_quantity * 60
    | .day    => original_quantity * 390
    | .week   => original_quantity * 5 * 390
    | .month  => original_quantity * 21 * 390
    | .year   => original_quantity * 252 * 390
  let target_minutes_per_candle :=
    match target_unit with
    | .minute => target_mult
    | .hour   => target_mult * 60
    | .day    => target_mult * 390
    | .week   => target_mult * 5 * 390
    | .month  => target_mult * 21 * 390
    | .year   => target_mult * 252 * 390
  max 1 (total_minutes / target_minutes_per_candle)

/-- The ordered candidate table of `resolve_lookback_window` (helpers.py,
lines 180-186), finest granularity first, each entry `(unit_final, mult)`. -/
def candidates : List (TUnit × Nat) :=
  [(.minute, 5), (.minute, 15), (.minute, 30),
   (.hour, 1), (.hour, 4),
   (.day, 1), (.day, 2), (.day, 3), (.day, 5),
   (.week, 1), (.week, 2),
   (.month, 1), (.month, 3)]

/-- The `total_days` estimate of `resolve_lookback_window` (helpers.py,
lines 163-177).  The trailing `else` branch of the Python chain is
unreachable for the six canonical units. -/
def total_days (quantity : Nat) : TUnit → Nat
  | .minute => max 1 ((quantity * 1) / 1440)
  | .hour   => max 1 (quantity / 24)
  | .day    => quantity
  | .week   => quantity * 7
  | .month  => quantity * 30
  | .year   => quantity * 365

/-- The search loop of `resolve_lookback_window` (helpers.py, lines
189-193): return the first entry of the table whose expected candle count is
at most `MAX_CANDLE_LIMIT`, as the pair `(mult, unit_final)`. -/
def firstFit (quantity : Nat) (unit : TUnit) :
    List (TUnit × Nat) → Option (Nat × TUnit)
  | [] => none
  | (unit_final, mult) :: rest =>
    if calculate_expected_candles quantity unit mult unit_final ≤ MAX_CANDLE_LIMIT then
      some (mult, unit_final)
    else
      firstFit quantity unit rest

/-- Result of the planner: multiplier, unit, and the total-day estimate the
start date is derived from (`start = today - totalDays days`,
`end = today`). -/
structure LookbackPlan where
  mult : Nat
  unit : TUnit
  totalDays : Nat
deriving DecidableEq, Repr

/-- Embedding of `resolve_lookback_window` (helpers.py, lines 160-199): the
first fitting candidate of the table, or the coarsest fallback of 6-month
candles when no candidate fits. -/
def resolve_lookback_window (quantity : Nat) (unit : TUnit) : LookbackPlan :=
  match firstFit quantity unit candidates with
  | some (mult, unit_final) => ⟨mult, unit_final, total_days quantity unit⟩
  | none => ⟨6, .month, total_days quantity unit⟩

/-- Embedding of the other `resolve_lookback_window` variant
(helper_functions.py, lines 49-84), which picks a fixed granularity per
input unit and performs no candidate search. -/
def hf_resolve_lookback_window (quantity : Nat) (unit : TUnit) : LookbackPlan :=
  match unit with
  | .minute => ⟨15, .minute, max 1 ((quantity * 1) / 1440)⟩
  | .hour   => ⟨30, .minute, max 1 (quantity / 24)⟩
  | .day    => ⟨1, .day, quantity⟩
  | .week   => ⟨1, .day, quantity * 7⟩
  | .month  => ⟨1, .week, quantity * 30⟩
  | .year   => ⟨1, .month, quantity * 365⟩

/-- The search loop returns a candidate satisfying the ceiling, and it is the
first such entry in table order: every entry before it exceeds the
ceiling. -/
theorem firstFit_spec (q : Nat) (u : TUnit) :
    ∀ (l : List (TUnit × Nat)) (m : Nat) (uf : TUnit),
      firstFit q u l = some (m, uf) →
      calculate_expected_candles q u m uf ≤ MAX_CANDLE_LIMIT ∧
      ∃ i, ∃ h : i < l.length,
        l.get ⟨i, h⟩ = (uf, m) ∧
        ∀ p ∈ l.take i, MAX_CANDLE_LIMIT < calculate_expected_candles q u p.2 p.1 := by
  intro l
  induction l with
  | nil => intro m uf h; simp [firstFit] at h
  | cons hd tl ih =>
    intro m uf h
    obtain ⟨u0, m0⟩ := hd
    by_cases hc : calculate_expected_candles q u m0 u0 ≤ MAX_CANDLE_LIMIT
    · simp only [firstFit, if_pos hc] at h
      obtain ⟨hm, hu⟩ : m0 = m ∧ u0 = uf := by
        constructor <;> [exact congrArg Prod.fst (Option.some.inj h);
                         exact congrArg Prod.snd (Option.some.inj h)]
      subst hm; subst hu
      refine ⟨hc, 0, by simp, rfl, ?_⟩
      intro p hp; simp at hp
    · simp only [firstFit, if_neg hc] at h
      obtain ⟨hle, i, hi, hget, hbefore⟩ := ih m uf h
      refine ⟨hle, i + 1, by simpa using Nat.succ_lt_succ hi, by simpa using hget, ?_⟩
      intro p hp
      rcases List.mem_cons.mp (by simpa using hp) with hp0 | hp1
      · subst hp0; exact Nat.lt_of_not_le hc
      · exact hbefore p hp1

/-- C1: whenever the planner answers from its ordered candidate table (the
search loop succeeds, i.e. the coarsest 6-month fallback is not taken), the
returned (multiplier, unit) pair has expected candle count at most the
ceiling 300, and it is the first entry of the table, in order, that
satisfies the bound. -/
theorem C1_planner_first_fit_under_ceiling (q : Nat) (u : TUnit) (m : Nat) (uf : TUnit)
    (hq : 0 < q) (h : firstFit q u candidates = some (m, uf)) :
    resolve_lookback_window q u = ⟨m, uf, total_days q u⟩ ∧
    calculate_expected_candles q u m uf ≤ MAX_CANDLE_LIMIT ∧
    ∃ i, ∃ hi : i < candidates.length,
      candidates.get ⟨i, hi⟩ = (uf, m) ∧
      ∀ p ∈ candidates.take i,
        MAX_CANDLE_LIMIT < calculate_expected_candles q u p.2 p.1 := by
  obtain ⟨hle, i, hi, hget, hbefore⟩ := firstFit_spec q u candidates m uf h
  refine ⟨?_, hle, i, hi, hget, hbefore⟩
  simp [resolve_lookback_window, h]

theorem C1_planner_first_fit_under_ceiling_witness :
    0 < 10 ∧ firstFit 10 .day candidates = some (15, .minute) ∧
    (resolve_lookback_window 10 .day = ⟨15, .minute, 10⟩ ∧
     calculate_expected_candles 10 .day 15 .minute ≤ MAX_CANDLE_LIMIT ∧
     ∃ i, ∃ hi : i < candidates.length,
       candidates.get ⟨i, hi⟩ = (.minute, 15) ∧
       ∀ p ∈ candidates.take i,
         MAX_CANDLE_LIMIT < calculate_expected_candles 10 .day p.2 p.1) :=
  ⟨by decide, by decide,
   C1_planner_first_fit_under_ceiling 10 .day 15 .minute (by decide) (by decide)⟩

/-- C5 counterexample: for the timeframe "10 days" (quantity 10, unit day),
the table-based planner returns multiplier 15 with unit minute — the first
table entry fitting the ceiling — not multiplier 1 with unit day as the
claim states. -/
theorem C5_ten_days_counterexample :
    resolve_lookback_window 10 .day = ⟨15, .minute, 10⟩ ∧
    ¬ ((resolve_lookback_window 10 .day).mult = 1 ∧
       (resolve_lookback_window 10 .day).unit = .day) := by decide

/-- C5 amended: for "10 days" the table-based planner
(helpers.resolve_lookback_window) returns unit minute, multiplier 15, with
expected candle count 260 ≤ 300; the fixed-granularity variant
(helper_functions.resolve_lookback_window) is the one that returns unit day,
multiplier 1. -/
theorem C5_ten_days_amended :
    resolve_lookback_window 10 .day = ⟨15, .minute, 10⟩ ∧
    calculate_expected_candles 10 .day 15 .minute = 260 ∧
    calculate_expected_candles 10 .day 15 .minute ≤ MAX_CANDLE_LIMIT ∧
    hf_resolve_lookback_window 10 .day = ⟨1, .day, 10⟩ := by decide

/-- Candle record built by get_polygon_aggregates (helpers.py, lines
207-215).  Prices and volume are carried through untouched by the code, so
their numeric type is irrelevant to the claims; they are modelled as Int.
The field name for the opening price carries a trailing underscore because
open is a Lean keyword. -/
structure Candle where
  open_ : Int
  high : Int
  low : Int
  close : Int
  volume : Int
  timestamp : Int
deriving DecidableEq, Repr

/-- Constant ALLOWED_UNITS from helpers.py line 15. -/
def ALLOWED_UNITS : List String :=
  ["minute", "hour", "day", "week", "month", "quarter", "year"]

/-- Structured error body as returned by the helpers: a dict with keys
error and details. -/
structure ErrBody where
  error : String
  details : String
deriving DecidableEq, Repr

/-- Embedding of get_polygon_aggregates (helpers.py, lines 202-239).  The
upstream call polygon_client.list_aggs either yields a list of aggregates or
raises; it is modelled by the upstream argument.  The warning printed when
the result length equals the limit is a log line only and does not change
the returned value, so it is not part of the result. -/
def get_polygon_aggregates (unit : String)
    (upstream : Except String (List Candle)) : Except ErrBody (List Candle) :=
  if unit ∉ ALLOWED_UNITS then
    .error ⟨"Invalid unit", "Unit " ++ unit ++ " not allowed by Polygon"⟩
  else
    match upstream with
    | .error e => .error ⟨"Polygon API error", e⟩
    | .ok aggs =>
      .ok (if aggs.length > MAX_CANDLE_LIMIT then aggs.take MAX_CANDLE_LIMIT else aggs)

/-- Strict ascending order on candle timestamps. -/
def CandleLt (a b : Candle) : Prop := a.timestamp < b.timestamp

instance : DecidableRel CandleLt := fun a b => inferInstanceAs (Decidable (_ < _))

/-- C2 counterexample: the fetcher performs no ordering validation, so an
upstream reply whose timestamps are out of order (here 2 then 1) is returned
unchanged, and the returned list is not strictly ascending by timestamp. -/
theorem C2_unsorted_upstream_counterexample :
    get_polygon_aggregates "day"
        (.ok [⟨0, 0, 0, 0, 0, 2⟩, ⟨0, 0, 0, 0, 0, 1⟩]) =
      .ok [⟨0, 0, 0, 0, 0, 2⟩, ⟨0, 0, 0, 0, 0, 1⟩] ∧
    ¬ List.Pairwise CandleLt
        [(⟨0, 0, 0, 0, 0, 2⟩ : Candle), ⟨0, 0, 0, 0, 0, 1⟩] := by decide

/-- C2 amended: every list the fetcher returns has length at most 300, an
upstream reply longer than 300 is truncated to exactly its first 300
elements, a reply within the limit is returned unchanged, and the fetcher
preserves strict timestamp ascension — the output is strictly ascending with
no duplicate timestamps whenever the upstream reply is (which the query
requests via sort=asc), but the fetcher does not itself validate order. -/
theorem C2_truncation_order_preserving (unit : String) (us l : List Candle)
    (h : get_polygon_aggregates unit (.ok us) = .ok l) :
    l.length ≤ MAX_CANDLE_LIMIT ∧
    (MAX_CANDLE_LIMIT < us.length →
      l = us.take MAX_CANDLE_LIMIT ∧ l.length = MAX_CANDLE_LIMIT) ∧
    (us.length ≤ MAX_CANDLE_LIMIT → l = us) ∧
    (List.Pairwise CandleLt us → List.Pairwise CandleLt l) := by
  simp only [get_polygon_aggregates] at h
  by_cases hu : unit ∉ ALLOWED_UNITS
  · simp [hu] at h
  · simp only [hu, if_false] at h
    replace h := Except.ok.inj h
    subst h
    by_cases hlen : us.length > MAX_CANDLE_LIMIT
    · rw [if_pos hlen]
      have hlt : (us.take MAX_CANDLE_LIMIT).length = MAX_CANDLE_LIMIT := by
        rw [List.length_take]; omega
      exact ⟨Nat.le_of_eq hlt, fun _ => ⟨rfl, hlt⟩, fun hle => absurd hlen (by omega),
             fun hp => hp.sublist (List.take_sublist _ _)⟩
    · rw [if_neg hlen]
      exact ⟨by omega, fun hc => absurd hc hlen, fun _ => rfl, fun hp => hp⟩

theorem C2_truncation_order_preserving_witness :
    get_polygon_aggregates "day" (.ok [⟨0, 0, 0, 0, 0, 1⟩]) = .ok [⟨0, 0, 0, 0, 0, 1⟩] ∧
    ([(⟨0, 0, 0, 0, 0, 1⟩ : Candle)].length ≤ MAX_CANDLE_LIMIT ∧
     (MAX_CANDLE_LIMIT < [(⟨0, 0, 0, 0, 0, 1⟩ : Candle)].length →
       [(⟨0, 0, 0, 0, 0, 1⟩ : Candle)] =
         [(⟨0, 0, 0, 0, 0, 1⟩ : Candle)].take MAX_CANDLE_LIMIT ∧
       [(⟨0, 0, 0, 0, 0, 1⟩ : Candle)].length = MAX_CANDLE_LIMIT) ∧
     ([(⟨0, 0, 0, 0, 0, 1⟩ : Candle)].length ≤ MAX_CANDLE_LIMIT →
       [(⟨0, 0, 0, 0, 0, 1⟩ : Candle)] = [(⟨0, 0, 0, 0, 0, 1⟩ : Candle)]) ∧
     (List.Pairwise CandleLt [(⟨0, 0, 0, 0, 0, 1⟩ : Candle)] →
       List.Pairwise CandleLt [(⟨0, 0, 0, 0, 0, 1⟩ : Candle)])) :=
  ⟨by decide,
   C2_truncation_order_preserving "day" [⟨0, 0, 0, 0, 0, 1⟩] [⟨0, 0, 0, 0, 0, 1⟩] (by decide)⟩

/-- Trade payload carried in a live-data frame. -/
structure TradeData where
  price : Int
  size : Int
  timestamp : Int
deriving DecidableEq, Repr

/-- Quote payload carried in a live-data frame. -/
structure QuoteData where
  bid : Int
  ask : Int
deriving DecidableEq, Repr

/-- The fields of data_to_hash in websocket_live_data (main.py, lines
174-180): exactly trade, quote, market_open, connection_status and type —
timestamps and counters are deliberately excluded.  The Python code hashes
the stringified dict; the model compares the field tuple itself, which the
stringify-then-hash scheme is meant to approximate. -/
structure Fingerprint where
  trade : Option TradeData
  quote : Option QuoteData
  market_open : Bool
  connection_status : String
  type : String
deriving DecidableEq, Repr

/-- Per-session mutable loop state of websocket_live_data (main.py, lines
131-133): last_data_hash, market_status_sent and data_count. -/
structure SessionState where
  last_data_hash : Option Fingerprint
  market_status_sent : Bool
  data_count : Nat
deriving DecidableEq, Repr

/-- Loop state on entry to the tick loop (main.py, lines 131-133). -/
def initialSession : SessionState := ⟨none, false, 0⟩

/-- The send condition of the tick loop (main.py, lines 187-189): first
message, changed fingerprint, or market closed with no closed-notice sent
yet. -/
def shouldSend (s : SessionState) (f : Fingerprint) : Bool :=
  decide (s.last_data_hash = none) ||
  decide (s.last_data_hash ≠ some f) ||
  (!f.market_open && !s.market_status_sent)

/-- One iteration of the tick loop acting on the session state
(main.py, lines 187-202): on send, record the fingerprint, bump the counter
and latch market_status_sent while the market is closed; afterwards reset
the latch once the market is open again. -/
def tick (s : SessionState) (f : Fingerprint) : SessionState :=
  let s1 : SessionState :=
    if shouldSend s f then
      ⟨some f, if !f.market_open then true else s.market_status_sent, s.data_count + 1⟩
    else s
  if f.market_open && s1.market_status_sent then
    ⟨s1.last_data_hash, false, s1.data_count⟩
  else s1

/-- Run the tick loop over a list of per-tick fingerprints. -/
def runTicks (s : SessionState) : List Fingerprint → SessionState
  | [] => s
  | f :: fs => runTicks (tick s f) fs

/-- A closed-notice emission: a frame sent although the fingerprint equals
the last emitted one, which can only happen through the one-shot
market-closed clause of the send condition. -/
def oneShotEmit (s : SessionState) (f : Fingerprint) : Bool :=
  shouldSend s f && decide (s.last_data_hash = some f)

/-- Number of closed-notice emissions along a run of the tick loop. -/
def countOneShot (s : SessionState) : List Fingerprint → Nat
  | [] => 0
  | f :: fs => (if oneShotEmit s f then 1 else 0) + countOneShot (tick s f) fs

/-- A tick that does not emit can only mean the fingerprint equals the last
emitted one, with the one-shot clause inactive. -/
theorem shouldSend_false_elim {s : SessionState} {f : Fingerprint}
    (h : shouldSend s f = false) :
    s.last_data_hash = some f ∧ (f.market_open = true ∨ s.market_status_sent = true) := by
  by_cases hl : s.last_data_hash = some f
  · refine ⟨hl, ?_⟩
    rcases hmo : f.market_open
    · rcases hsent : s.market_status_sent
      · exfalso; simp [shouldSend, hl, hmo, hsent] at h
      · exact Or.inr rfl
    · exact Or.inl rfl
  · exfalso; simp [shouldSend, hl] at h

/-- The stored hash after a tick: the tick fingerprint when the tick
emitted, the previous hash otherwise. -/
theorem tick_last (s : SessionState) (f : Fingerprint) :
    (tick s f).last_data_hash =
      if shouldSend s f then some f else s.last_data_hash := by
  rcases h : shouldSend s f
  · simp only [tick, h, Bool.false_eq_true, if_false]
    split <;> rfl
  · simp only [tick, h, if_true]
    split <;> split <;> rfl

/-- On a market-closed tick, the latch becomes true if the tick emitted and
is unchanged otherwise (the reset branch needs an open market). -/
theorem tick_sent_closed (s : SessionState) (f : Fingerprint)
    (hmo : f.market_open = false) :
    (tick s f).market_status_sent =
      if shouldSend s f then true else s.market_status_sent := by
  rcases h : shouldSend s f
  · simp [tick, h, hmo]
  · simp [tick, h, hmo]

/-- On a market-open tick the latch always ends false. -/
theorem tick_sent_open (s : SessionState) (f : Fingerprint)
    (hmo : f.market_open = true) :
    (tick s f).market_status_sent = false := by
  rcases h : shouldSend s f
  · rcases hsent : s.market_status_sent
    · simp [tick, h, hmo, hsent]
    · simp [tick, h, hmo, hsent]
  · rcases hsent : s.market_status_sent
    · simp [tick, h, hmo, hsent]
    · simp [tick, h, hmo, hsent]

/-- After a tick with fingerprint f, an immediately following tick with the
same fingerprint never emits: whether or not the first tick emitted, the
stored hash equals f afterwards and the one-shot clause cannot fire. -/
theorem tick_same_fingerprint_no_resend (s : SessionState) (f : Fingerprint) :
    shouldSend (tick s f) f = false := by
  have hlast : (tick s f).last_data_hash = some f := by
    rw [tick_last]
    rcases h : shouldSend s f
    · simp only [Bool.false_eq_true, if_false]
      exact (shouldSend_false_elim h).1
    · simp
  simp only [shouldSend, hlast]
  rcases hmo : f.market_open
  · rw [tick_sent_closed s f hmo]
    rcases h : shouldSend s f
    · have hsent : s.market_status_sent = true := by
        rcases (shouldSend_false_elim h).2 with hopen | hs
        · rw [hopen] at hmo; exact absurd hmo (by simp)
        · exact hs
      simp [hsent]
    · simp
  · simp [hmo]

/-- While the market stays closed and the closed-notice latch is set, a tick
never produces a closed-notice emission and the latch stays set. -/
theorem closed_latch_step (s : SessionState) (f : Fingerprint)
    (hsent : s.market_status_sent = true) (hmo : f.market_open = false) :
    oneShotEmit s f = false ∧ (tick s f).market_status_sent = true := by
  constructor
  · by_cases hl : s.last_data_hash = some f
    · have hss : shouldSend s f = false := by
        simp [shouldSend, hl, hmo, hsent]
      simp [oneShotEmit, hss]
    · simp [oneShotEmit, hl]
  · rw [tick_sent_closed s f hmo]
    rcases h : shouldSend s f
    · simpa using hsent
    · simp

/-- C3: change detection and the market-closed one-shot.  First, across any
two consecutive ticks carrying identical fingerprint fields at most one
frame is emitted.  Second, immediately after an open-to-closed transition
(last emitted fingerprint has market_open true, current tick has market_open
false) a frame is emitted even if nothing else changed, and the closed-notice
latch is set.  Third, while the latch is set and the market stays closed, no
further closed-notice is emitted along the whole run and the latch stays set
(it resets only once the market reopens). -/
theorem C3_dedup_and_one_shot :
    (∀ s f, ((if shouldSend s f then 1 else 0) +
             (if shouldSend (tick s f) f then 1 else 0)) ≤ 1) ∧
    (∀ s f g, s.last_data_hash = some f → f.market_open = true →
       g.market_open = false →
       shouldSend s g = true ∧ (tick s g).market_status_sent = true) ∧
    (∀ s fs, s.market_status_sent = true → (∀ f ∈ fs, f.market_open = false) →
       countOneShot s fs = 0 ∧ (runTicks s fs).market_status_sent = true) := by
  refine ⟨?_, ?_, ?_⟩
  · intro s f
    rw [tick_same_fingerprint_no_resend s f]
    split <;> simp
  · intro s f g hlast hfo hgo
    have hne : s.last_data_hash ≠ some g := by
      rw [hlast]
      intro hc
      have := Option.some.inj hc
      rw [this, hgo] at hfo
      exact Bool.false_ne_true hfo
    have hsend : shouldSend s g = true := by
      simp [shouldSend, hne]
    refine ⟨hsend, ?_⟩
    simp [tick, hsend, hgo]
  · intro s fs
    induction fs generalizing s with
    | nil => intro hsent _; exact ⟨rfl, hsent⟩
    | cons f fs ih =>
      intro hsent hall
      obtain ⟨hone, hkeep⟩ := closed_latch_step s f hsent (hall f (List.mem_cons_self f fs))
      obtain ⟨hcount, hfinal⟩ := ih (tick s f) hkeep fun g hg => hall g (List.mem_cons_of_mem f hg)
      refine ⟨?_, hfinal⟩
      simp [countOneShot, hone, hcount]

theorem C3_dedup_and_one_shot_witness :
    (((if shouldSend initialSession ⟨none, none, true, "c", "t"⟩ then 1 else 0) +
      (if shouldSend (tick initialSession ⟨none, none, true, "c", "t"⟩)
          ⟨none, none, true, "c", "t"⟩ then 1 else 0)) ≤ 1) ∧
    (shouldSend ⟨some ⟨none, none, true, "c", "t"⟩, false, 1⟩ ⟨none, none, false, "c", "t"⟩ = true ∧
     (tick ⟨some ⟨none, none, true, "c", "t"⟩, false, 1⟩
        ⟨none, none, false, "c", "t"⟩).market_status_sent = true) ∧
    (countOneShot ⟨some ⟨none, none, false, "c", "t"⟩, true, 2⟩
        [⟨none, none, false, "c", "t"⟩] = 0 ∧
     (runTicks ⟨some ⟨none, none, false, "c", "t"⟩, true, 2⟩
        [⟨none, none, false, "c", "t"⟩]).market_status_sent = true) :=
  ⟨C3_dedup_and_one_shot.1 initialSession ⟨none, none, true, "c", "t"⟩,
   C3_dedup_and_one_shot.2.1 ⟨some ⟨none, none, true, "c", "t"⟩, false, 1⟩
     ⟨none, none, true, "c", "t"⟩ ⟨none, none, false, "c", "t"⟩ rfl rfl rfl,
   C3_dedup_and_one_shot.2.2 ⟨some ⟨none, none, false, "c", "t"⟩, true, 2⟩
     [⟨none, none, false, "c", "t"⟩] rfl (by decide)⟩

/-- Connection status values assigned by websocket_live_data before the
tick loop (main.py, lines 72, 93, 102, 112, 122). -/
inductive ConnStatus where
  | initializing
  | connected
  | failed
deriving DecidableEq, Repr

/-- Outcome of the connection phase of websocket_live_data: the status
fields of the initial status frames sent over the client socket, in order,
the resulting connection_status variable, and whether
start_polygon_websocket was called at all. -/
structure PreLoopResult where
  frames : List String
  connection_status : ConnStatus
  acquire_attempted : Bool
deriving DecidableEq, Repr

/-- Embedding of the connection phase of websocket_live_data (main.py,
lines 74-129).  The acquire argument models the outcome of
start_polygon_websocket: ok (some c) is a successful connection, ok none is
the None it returns on caught error, error e is an exception escaping the
call.  Note the unconditional "connecting" status frame sent before the
market check. -/
def preLoopPhase (market_open : Bool) (acquire : Except String (Option Nat)) :
    PreLoopResult :=
  if market_open then
    match acquire with
    | .ok (some _) => ⟨["connecting", "connected"], .connected, true⟩
    | .ok none => ⟨["connecting", "connection_failed"], .failed, true⟩
    | .error _ => ⟨["connecting", "connection_error"], .failed, true⟩
  else
    ⟨["connecting", "market_closed"], .failed, false⟩

/-- The per-tick data source selection (main.py, lines 142-161): the cached
push feed only when connection_status is connected, REST fallback
otherwise. -/
def tickDataSource (c : ConnStatus) : String :=
  if c = .connected then "polygon_websocket" else "polygon_rest"

/-- C6 counterexample: with the market closed the session never attempts an
acquire, but the first frame sent to the client is the unconditional
"connecting" status frame — not a "market_closed" frame as the claim
states. -/
theorem C6_first_frame_counterexample :
    (preLoopPhase false (.ok none)).acquire_attempted = false ∧
    (preLoopPhase false (.ok none)).frames.head? = some "connecting" ∧
    some "connecting" ≠ some "market_closed" := by decide

/-- C6 amended: a session started while the market-hours predicate is false
never attempts start_polygon_websocket, its tick loop runs in REST fallback
mode, and its initial frames are exactly the unconditional "connecting"
status frame followed by the "market_closed" status frame — so the market
closed notice is the first frame after the market check, but the second
frame overall. -/
theorem C6_market_closed_direct_fallback (acquire : Except String (Option Nat)) :
    preLoopPhase false acquire = ⟨["connecting", "market_closed"], .failed, false⟩ ∧
    tickDataSource (preLoopPhase false acquire).connection_status = "polygon_rest" := by
  constructor <;> rfl

/-- Program points of start_polygon_websocket (helpers.py, lines 328-367),
one per segment between suspension points: the registry check runs
atomically on entry, then the coroutine suspends at websockets.connect,
ws.send(auth), ws.recv(), ws.send(subscribe), and finally registers the
connection and returns without further suspension. -/
inductive WsPc where
  | check
  | connecting
  | authSend
  | authRecv
  | subscribing
  | registering
  | done
deriving DecidableEq, Repr

/-- One coroutine executing start_polygon_websocket: its program counter,
the connection it opened (if any), and its return value. -/
structure WsTask where
  pc : WsPc
  conn : Option Nat
  result : Option Nat
deriving DecidableEq, Repr

/-- Shared process-wide state for one ticker: the websocket_connections
entry for the ticker, a fresh-id counter, and the upstream connections
opened and subscribe messages sent so far. -/
structure SharedWs where
  registry : Option Nat
  next_conn : Nat
  connections : List Nat
  subscriptions : List Nat
deriving DecidableEq, Repr

/-- Advance one coroutine by one atomic segment of
start_polygon_websocket.  The registry check happens on entry; the
registration happens only in the final segment, after all suspension
points. -/
def stepTask : SharedWs → WsTask → SharedWs × WsTask
  | sh, ⟨.check, c, r⟩ =>
    match sh.registry with
    | some ws => (sh, ⟨.done, c, some ws⟩)
    | none => (sh, ⟨.connecting, c, r⟩)
  | sh, ⟨.connecting, _, r⟩ =>
    (⟨sh.registry, sh.next_conn + 1, sh.connections ++ [sh.next_conn], sh.subscriptions⟩,
     ⟨.authSend, some sh.next_conn, r⟩)
  | sh, ⟨.authSend, c, r⟩ => (sh, ⟨.authRecv, c, r⟩)
  | sh, ⟨.authRecv, c, r⟩ => (sh, ⟨.subscribing, c, r⟩)
  | sh, ⟨.subscribing, c, r⟩ =>
    (⟨sh.registry, sh.next_conn, sh.connections, sh.subscriptions ++ [c.getD 0]⟩,
     ⟨.registering, c, r⟩)
  | sh, ⟨.registering, c, _⟩ =>
    (⟨c, sh.next_conn, sh.connections, sh.subscriptions⟩, ⟨.done, c, c⟩)
  | sh, ⟨.done, c, r⟩ => (sh, ⟨.done, c, r⟩)

/-- Two concurrent calls of start_polygon_websocket for the same ticker
under the cooperative event loop. -/
structure AcquireSystem where
  shared : SharedWs
  task1 : WsTask
  task2 : WsTask
deriving DecidableEq, Repr

/-- Run one scheduling step: true advances the first call, false the
second. -/
def schedStep (sys : AcquireSystem) (which : Bool) : AcquireSystem :=
  if which then
    let p := stepTask sys.shared sys.task1
    ⟨p.1, p.2, sys.task2⟩
  else
    let p := stepTask sys.shared sys.task2
    ⟨p.1, sys.task1, p.2⟩

/-- Run a whole schedule. -/
def runSched (sys : AcquireSystem) : List Bool → AcquireSystem
  | [] => sys
  | w :: ws => runSched (schedStep sys w) ws

/-- Initial state: no registered connection, both calls about to run their
registry check. -/
def initAcquire : AcquireSystem :=
  ⟨⟨none, 0, [], []⟩, ⟨.check, none, none⟩, ⟨.check, none, none⟩⟩

/-- C4: two overlapping calls for the same ticker, where the second performs
its registry check while the first is still suspended at
websockets.connect, each open an upstream connection and each send a
subscribe message: two upstream subscriptions exist, the calls return two
different connections, and the registration of the first is overwritten by
the second — refuting the exactly-one-subscription claim for concurrent
acquires. -/
theorem C4_concurrent_duplicate_subscription :
    (runSched initAcquire
        ([true, false] ++ List.replicate 5 true ++ List.replicate 5 false)).shared.subscriptions
        = [0, 1] ∧
    (runSched initAcquire
        ([true, false] ++ List.replicate 5 true ++ List.replicate 5 false)).shared.connections
        = [0, 1] ∧
    (runSched initAcquire
        ([true, false] ++ List.replicate 5 true ++ List.replicate 5 false)).task1.result
        = some 0 ∧
    (runSched initAcquire
        ([true, false] ++ List.replicate 5 true ++ List.replicate 5 false)).task2.result
        = some 1 ∧
    (runSched initAcquire
        ([true, false] ++ List.replicate 5 true ++ List.replicate 5 false)).shared.registry
        = some 1 := by decide

/-- For contrast with the race above: when the two calls do not overlap (the
second starts after the first completed), the registry check of the second
call sees the registered connection, only one upstream connection and one
subscription exist, and both calls return the same connection — the claimed
behavior holds for serialized calls. -/
theorem sequential_acquire_single_subscription :
    (runSched initAcquire (List.replicate 6 true ++ [false])).shared.subscriptions = [0] ∧
    (runSched initAcquire (List.replicate 6 true ++ [false])).shared.connections = [0] ∧
    (runSched initAcquire (List.replicate 6 true ++ [false])).task1.result = some 0 ∧
    (runSched initAcquire (List.replicate 6 true ++ [false])).task2.result = some 0 := by
  decide

/-- An inbound Polygon websocket event as read by
listen_to_polygon_messages: event type (ev), symbol (sym), price (p), size
(s) and exchange timestamp (t). -/
structure WsEvent where
  ev : String
  sym : String
  p : Int
  sz : Int
  t : Int
deriving DecidableEq, Repr

/-- A websocket_data entry (helpers.py, lines 315-324 and 372-378): ticker,
the datetime.now() iso timestamp at write time, the type tag, the trade
payload when present, and the message of the no_data default.  The entries
the listener writes carry a trade and no message; the no_data default
carries a message and no trade.  No entry ever carries a quote. -/
structure LiveEntry where
  ticker : String
  timestamp : String
  type : String
  trade : Option TradeData
  message : Option String
deriving DecidableEq, Repr

/-- The websocket_data dictionary, keyed by ticker. -/
def LiveCache := List (String × LiveEntry)

instance : DecidableEq LiveCache := inferInstanceAs (DecidableEq (List (String × LiveEntry)))

/-- Dictionary assignment websocket_data[k] = v: replace the entry for k or
append it. -/
def dictSet : LiveCache → String → LiveEntry → LiveCache
  | [], k, v => [(k, v)]
  | (k0, v0) :: rest, k, v =>
    if k0 = k then (k, v) :: rest else (k0, v0) :: dictSet rest k v

/-- Dictionary read websocket_data.get(k). -/
def dictGet : LiveCache → String → Option LiveEntry
  | [], _ => none
  | (k0, v0) :: rest, k => if k0 = k then some v0 else dictGet rest k

/-- Embedding of the per-event body of listen_to_polygon_messages
(helpers.py, lines 308-324): only events with ev = "T" whose sym equals the
subscribed ticker write websocket_data; every other event — quotes
included — leaves the dictionary untouched.  now is the datetime.now()
isoformat string at processing time. -/
def processEvent (ticker now : String) (cache : LiveCache) (e : WsEvent) : LiveCache :=
  if e.ev = "T" ∧ e.sym = ticker then
    dictSet cache ticker ⟨ticker, now, "trade", some ⟨e.p, e.sz, e.t⟩, none⟩
  else cache

/-- Embedding of one received message, a list of events folded through
processEvent. -/
def processMessage (ticker now : String) (cache : LiveCache) (events : List WsEvent) :
    LiveCache :=
  events.foldl (processEvent ticker now) cache

/-- The no_data default payload of get_websocket_live_data (helpers.py,
lines 372-378). -/
def no_data_entry (ticker now : String) : LiveEntry :=
  ⟨ticker, now, "no_data", none,
   some "No recent websocket data available. Data may be 15 minutes delayed."⟩

/-- Embedding of get_websocket_live_data (helpers.py, lines 370-378): a pure
dictionary read with a default.  The cache is returned alongside the payload
to make explicit that the call mutates nothing. -/
def get_websocket_live_data (cache : LiveCache) (ticker now : String) :
    LiveEntry × LiveCache :=
  (match dictGet cache ticker with
   | some v => v
   | none => no_data_entry ticker now, cache)

/-- C9 counterexample: a quote event (ev = "Q") for the subscribed ticker
leaves websocket_data completely unchanged — no last_quote is recorded,
refuting the claim that quote events update the per-instrument quote
state. -/
theorem C9_quote_event_counterexample :
    processEvent "SPY" "t0" [] ⟨"Q", "SPY", 100, 1, 5⟩ = ([] : LiveCache) ∧
    dictGet (processEvent "SPY" "t0" [] ⟨"Q", "SPY", 100, 1, 5⟩) "SPY" = none := by
  constructor <;> rfl

/-- C9 amended: the receive task handles trade events only.  An event with
ev = "T" and matching sym overwrites the ticker entry of websocket_data with
a trade payload (price, size, exchange timestamp); any event with a
different ev — quote events included — or a different sym leaves
websocket_data unchanged, and no entry ever carries quote data. -/
theorem C9_trade_events_only (ticker now : String) (cache : LiveCache) (e : WsEvent) :
    (e.ev = "T" → e.sym = ticker →
      processEvent ticker now cache e =
        dictSet cache ticker ⟨ticker, now, "trade", some ⟨e.p, e.sz, e.t⟩, none⟩) ∧
    (e.ev ≠ "T" → processEvent ticker now cache e = cache) ∧
    (e.sym ≠ ticker → processEvent ticker now cache e = cache) := by
  refine ⟨fun h1 h2 => ?_, fun h1 => ?_, fun h2 => ?_⟩
  · simp [processEvent, h1, h2]
  · simp [processEvent, h1]
  · simp [processEvent, h2]

theorem C9_trade_events_only_witness :
    (WsEvent.ev ⟨"T", "SPY", 100, 1, 5⟩ = "T" →
      WsEvent.sym ⟨"T", "SPY", 100, 1, 5⟩ = "SPY" →
      processEvent "SPY" "t0" [] ⟨"T", "SPY", 100, 1, 5⟩ =
        dictSet [] "SPY" ⟨"SPY", "t0", "trade", some ⟨100, 1, 5⟩, none⟩) ∧
    (WsEvent.ev ⟨"T", "SPY", 100, 1, 5⟩ ≠ "T" →
      processEvent "SPY" "t0" [] ⟨"T", "SPY", 100, 1, 5⟩ = ([] : LiveCache)) ∧
    (WsEvent.sym ⟨"T", "SPY", 100, 1, 5⟩ ≠ "SPY" →
      processEvent "SPY" "t0" [] ⟨"T", "SPY", 100, 1, 5⟩ = ([] : LiveCache)) :=
  C9_trade_events_only "SPY" "t0" [] ⟨"T", "SPY", 100, 1, 5⟩

/-- C10: get_websocket_live_data is a pure snapshot read: it returns the
cached entry when one exists for the ticker, otherwise the no_data default
payload carrying the requested ticker, and in either case the cache is
unchanged — the call performs no network request and no mutation. -/
theorem C10_get_latest_pure_snapshot (cache : LiveCache) (ticker now : String) :
    ((get_websocket_live_data cache ticker now).2 = cache) ∧
    (∀ v, dictGet cache ticker = some v →
      (get_websocket_live_data cache ticker now).1 = v) ∧
    (dictGet cache ticker = none →
      (get_websocket_live_data cache ticker now).1 = no_data_entry ticker now ∧
      (get_websocket_live_data cache ticker now).1.type = "no_data" ∧
      (get_websocket_live_data cache ticker now).1.ticker = ticker) := by
  refine ⟨rfl, fun v hv => ?_, fun hn => ?_⟩
  · simp [get_websocket_live_data, hv]
  · refine ⟨?_, ?_, ?_⟩ <;> simp [get_websocket_live_data, hn, no_data_entry]

theorem C10_get_latest_pure_snapshot_witness :
    ((get_websocket_live_data [] "SPY" "t0").2 = ([] : LiveCache)) ∧
    (∀ v, dictGet [] "SPY" = some v → (get_websocket_live_data [] "SPY" "t0").1 = v) ∧
    (dictGet [] "SPY" = none →
      (get_websocket_live_data [] "SPY" "t0").1 = no_data_entry "SPY" "t0" ∧
      (get_websocket_live_data [] "SPY" "t0").1.type = "no_data" ∧
      (get_websocket_live_data [] "SPY" "t0").1.ticker = "SPY") :=
  C10_get_latest_pure_snapshot [] "SPY" "t0"

/-- One preset entry of get_timeframe_config (helpers.py, lines 52-107):
multiplier, unit string, days back and description.  The unit is kept as the
string the Python dict holds, since it is fed to get_polygon_aggregates
verbatim. -/
structure PresetConfig where
  mult : Nat
  unit : String
  days_back : Nat
  description : String
deriving DecidableEq, Repr

/-- Association-list lookup mirroring a Python dict read. -/
def assocLookup {α : Type} : List (String × α) → String → Option α
  | [], _ => none
  | (k0, v) :: rest, k => if k0 = k then some v else assocLookup rest k

/-- The preset table of get_timeframe_config (helpers.py, lines 52-107).
The YTD days_back is computed from the current date in Python and is a
parameter here. -/
def preset_configs (ytd_days : Nat) : List (String × PresetConfig) :=
  [("1D", ⟨15, "minute", 1, "1 day, 15-minute candles"⟩),
   ("1W", ⟨1, "hour", 7, "1 week, 1-hour candles"⟩),
   ("1M", ⟨4, "hour", 30, "1 month, 4-hour candles"⟩),
   ("3M", ⟨1, "day", 90, "3 months, daily candles"⟩),
   ("6M", ⟨1, "day", 180, "6 months, daily candles"⟩),
   ("YTD", ⟨1, "day", ytd_days, "Year-to-date, daily candles"⟩),
   ("3Y", ⟨1, "week", 1095, "3 years, weekly candles"⟩),
   ("5Y", ⟨1, "week", 1825, "5 years, weekly candles"⟩),
   ("7Y", ⟨1, "month", 2555, "7 years, monthly candles"⟩)]

/-- Embedding of get_timeframe_config (helpers.py, lines 45-115): uppercase
and strip the input, look it up in the preset table, raise ValueError
(modelled as Except.error) when absent. -/
def get_timeframe_config (ytd_days : Nat) (timeframe : String) :
    Except String PresetConfig :=
  let tf := timeframe.toUpper.trim
  match assocLookup (preset_configs ytd_days) tf with
  | some c => .ok c
  | none =>
    .error ("Invalid timeframe: " ++ tf ++
      ". Valid options: 1D, 1W, 1M, 3M, 6M, YTD, 3Y, 5Y, 7Y")

/-- Response body of the historical-data endpoint (main.py, lines 32-62):
either the full success payload (the start/end dates derived from days_back
are represented by days_back itself) or a structured error body with error
and details fields.  The handler is a total function: the ValueError and
generic exception handlers of the Python code mean no fault escapes. -/
inductive HistResponse where
  | success (ticker timeframe description unit : String) (multiplier : Nat)
      (days_back : Nat) (data_points : Nat) (data : List Candle)
  | errorBody (error details : String)
deriving DecidableEq, Repr

/-- Embedding of fetch_historical_data (main.py, lines 32-62): resolve the
preset timeframe, fetch candles, pass any error dict straight through, and
otherwise assemble the success payload. -/
def fetch_historical_data (ticker timeframe : String) (ytd_days : Nat)
    (upstream : Except String (List Candle)) : HistResponse :=
  match get_timeframe_config ytd_days timeframe with
  | .error msg => .errorBody "Invalid timeframe" msg
  | .ok cfg =>
    match get_polygon_aggregates cfg.unit upstream with
    | .error e => .errorBody e.error e.details
    | .ok data =>
      .success ticker.toUpper timeframe.toUpper cfg.description cfg.unit
        cfg.mult cfg.days_back data.length data

/-- C8: parse and upstream failures never escape the historical-data
handler: an invalid timeframe yields the structured Invalid-timeframe error
body, an upstream failure yields the structured error body it produced, and
on the happy path the handler returns the full success payload; in every
case the (total) handler answers with one of the two structured shapes. -/
theorem C8_handler_structured_errors (ticker timeframe : String) (ytd_days : Nat)
    (upstream : Except String (List Candle)) :
    (∀ msg, get_timeframe_config ytd_days timeframe = .error msg →
       fetch_historical_data ticker timeframe ytd_days upstream =
         .errorBody "Invalid timeframe" msg) ∧
    (∀ cfg e, get_timeframe_config ytd_days timeframe = .ok cfg →
       get_polygon_aggregates cfg.unit upstream = .error e →
       fetch_historical_data ticker timeframe ytd_days upstream =
         .errorBody e.error e.details) ∧
    (∀ cfg data, get_timeframe_config ytd_days timeframe = .ok cfg →
       get_polygon_aggregates cfg.unit upstream = .ok data →
       fetch_historical_data ticker timeframe ytd_days upstream =
         .success ticker.toUpper timeframe.toUpper cfg.description cfg.unit
           cfg.mult cfg.days_back data.length data) ∧
    ((∃ er dt, fetch_historical_data ticker timeframe ytd_days upstream =
        .errorBody er dt) ∨
     (∃ tk tf de un mu db n d,
        fetch_historical_data ticker timeframe ytd_days upstream =
          .success tk tf de un mu db n d)) := by
  refine ⟨fun msg h => ?_, fun cfg e h1 h2 => ?_, fun cfg data h1 h2 => ?_, ?_⟩
  · simp [fetch_historical_data, h]
  · simp [fetch_historical_data, h1, h2]
  · simp [fetch_historical_data, h1, h2]
  · rcases h : fetch_historical_data ticker timeframe ytd_days upstream with
      ⟨tk, tf, de, un, mu, db, n, d⟩ | ⟨er, dt⟩
    · exact Or.inr ⟨tk, tf, de, un, mu, db, n, d, rfl⟩
    · exact Or.inl ⟨er, dt, rfl⟩

theorem C8_handler_structured_errors_witness :
    (∀ msg, get_timeframe_config 1 "1D" = .error msg →
       fetch_historical_data "spy" "1D" 1 (.ok []) =
         .errorBody "Invalid timeframe" msg) ∧
    (∀ cfg e, get_timeframe_config 1 "1D" = .ok cfg →
       get_polygon_aggregates cfg.unit (.ok []) = .error e →
       fetch_historical_data "spy" "1D" 1 (.ok []) = .errorBody e.error e.details) ∧
    (∀ cfg data, get_timeframe_config 1 "1D" = .ok cfg →
       get_polygon_aggregates cfg.unit (.ok []) = .ok data →
       fetch_historical_data "spy" "1D" 1 (.ok []) =
         .success "spy".toUpper "1D".toUpper cfg.description cfg.unit
           cfg.mult cfg.days_back data.length data) ∧
    ((∃ er dt, fetch_historical_data "spy" "1D" 1 (.ok []) = .errorBody er dt) ∨
     (∃ tk tf de un mu db n d,
        fetch_historical_data "spy" "1D" 1 (.ok []) = .success tk tf de un mu db n d)) :=
  C8_handler_structured_errors "spy" "1D" 1 (.ok [])

/-- Numeric value of a run of decimal digit characters, as int() computes
it on the matched group. -/
def digitsVal (ds : List Char) : Nat :=
  ds.foldl (fun n c => n * 10 + (c.toNat - 48)) 0

/-- The alternation of the parse_timeframe regular expression
(helper_functions.py, line 26), in the order the regex engine tries it, with
the canonical unit each alternative is mapped to by the dict on lines
33-41. -/
def unitWords : List (String × TUnit) :=
  [("minute", .minute), ("min", .minute), ("hour", .hour), ("day", .day),
   ("week", .week), ("month", .month), ("year", .year)]

/-- Ordered-alternation match of the unit group at the current position:
the first alternative that is a prefix of the remaining characters wins.
The optional trailing s of the pattern only consumes input and never
influences the produced value, so it is not modelled. -/
def matchUnit (cs : List Char) : Option TUnit :=
  if "minute".toList.isPrefixOf cs then some .minute
  else if "min".toList.isPrefixOf cs then some .minute
  else if "hour".toList.isPrefixOf cs then some .hour
  else if "day".toList.isPrefixOf cs then some .day
  else if "week".toList.isPrefixOf cs then some .week
  else if "month".toList.isPrefixOf cs then some .month
  else if "year".toList.isPrefixOf cs then some .year
  else none

/-- Python str.strip() on the character list: whitespace removed from both
ends. -/
def pyStrip (cs : List Char) : List Char :=
  ((cs.dropWhile Char.isWhitespace).reverse.dropWhile Char.isWhitespace).reverse

/-- The tf.strip().lower() normalization of parse_timeframe, on the
character list of the input string. -/
def normalizeTf (s : String) : List Char :=
  (pyStrip s.toList).map Char.toLower

/-- Embedding of parse_timeframe (helper_functions.py, lines 25-46):
re.match of (digits)(whitespace*)(unit alternation)s? against the stripped,
lowercased text.  re.match anchors at the start only, so trailing
characters are ignored; greedy digit and whitespace runs are exact here
because no unit word starts with a digit or whitespace.  None models the
raised ValueError. -/
def parse_timeframe (s : String) : Option (Nat × TUnit) :=
  if (normalizeTf s).takeWhile Char.isDigit = [] then none
  else
    match matchUnit (((normalizeTf s).dropWhile Char.isDigit).dropWhile
        Char.isWhitespace) with
    | none => none
    | some u => some (digitsVal ((normalizeTf s).takeWhile Char.isDigit), u)

/-- Whether an Except result is a success. -/
def isOkResult {ε α : Type} : Except ε α → Bool
  | .ok _ => true
  | .error _ => false

/-- Declarative reading of the freeform grammar, written from the spec
wording amended to prefix matching: after strip and lowercase the text
begins with one or more digits, then optional whitespace, then one of the
unit alternatives, and may continue arbitrarily. -/
def FreeformPrefixMatch (s : String) : Prop :=
  ∃ ds ws r : List Char, ∃ p ∈ unitWords,
    normalizeTf s = ds ++ ws ++ p.1.toList ++ r ∧
    ds ≠ [] ∧ (∀ c ∈ ds, c.isDigit = true) ∧ (∀ c ∈ ws, c.isWhitespace = true)

/-- A whitespace character is not a digit. -/
theorem not_digit_of_whitespace {c : Char} (h : c.isWhitespace = true) :
    c.isDigit = false := by
  simp only [Char.isWhitespace, Bool.or_eq_true, decide_eq_true_eq] at h
  rcases h with ((rfl | rfl) | rfl) | rfl <;> decide

/-- Splitting takeWhile and dropWhile at a known boundary: if every element
of the first part satisfies the predicate and the head of the second part
does not, the split is exact. -/
theorem takeWhile_dropWhile_split {α : Type} (p : α → Bool) :
    ∀ (l1 l2 : List α), (∀ c ∈ l1, p c = true) →
      (∀ c, l2.head? = some c → p c = false) →
      (l1 ++ l2).takeWhile p = l1 ∧ (l1 ++ l2).dropWhile p = l2 := by
  intro l1
  induction l1 with
  | nil =>
    intro l2 _ hhead
    cases l2 with
    | nil => simp
    | cons c cs =>
      have hc := hhead c rfl
      constructor
      · rw [List.nil_append, List.takeWhile_cons, if_neg (by simp [hc])]
      · rw [List.nil_append, List.dropWhile_cons, if_neg (by simp [hc])]
  | cons a l1 ih =>
    intro l2 hall hhead
    have ha : p a = true := hall a (List.mem_cons_self a l1)
    have ih2 := ih l2 (fun c hc => hall c (List.mem_cons_of_mem a hc)) hhead
    constructor
    · rw [List.cons_append, List.takeWhile_cons, if_pos ha, ih2.1]
    · rw [List.cons_append, List.dropWhile_cons, if_pos ha]
      exact ih2.2

/-- Every alternative of the unit group starts with a letter: not a digit
and not whitespace. -/
theorem unitWord_head_facts {p : String × TUnit} (hp : p ∈ unitWords) :
    ∃ c rest, p.1.toList = c :: rest ∧ c.isDigit = false ∧ c.isWhitespace = false := by
  simp only [unitWords, List.mem_cons, List.not_mem_nil, or_false] at hp
  rcases hp with rfl | rfl | rfl | rfl | rfl | rfl | rfl
  · exact ⟨'m', ['i', 'n', 'u', 't', 'e'], by decide, by decide, by decide⟩
  · exact ⟨'m', ['i', 'n'], by decide, by decide, by decide⟩
  · exact ⟨'h', ['o', 'u', 'r'], by decide, by decide, by decide⟩
  · exact ⟨'d', ['a', 'y'], by decide, by decide, by decide⟩
  · exact ⟨'w', ['e', 'e', 'k'], by decide, by decide, by decide⟩
  · exact ⟨'m', ['o', 'n', 't', 'h'], by decide, by decide, by decide⟩
  · exact ⟨'y', ['e', 'a', 'r'], by decide, by decide, by decide⟩

/-- The ordered alternation succeeds exactly when some alternative is a
prefix of the remaining input. -/
theorem matchUnit_isSome_iff (cs : List Char) :
    (matchUnit cs).isSome = true ↔
      ∃ p ∈ unitWords, p.1.toList.isPrefixOf cs = true := by
  constructor
  · intro h
    unfold matchUnit at h
    split_ifs at h with h1 h2 h3 h4 h5 h6 h7
    · exact ⟨("minute", .minute), by simp [unitWords], h1⟩
    · exact ⟨("min", .minute), by simp [unitWords], h2⟩
    · exact ⟨("hour", .hour), by simp [unitWords], h3⟩
    · exact ⟨("day", .day), by simp [unitWords], h4⟩
    · exact ⟨("week", .week), by simp [unitWords], h5⟩
    · exact ⟨("month", .month), by simp [unitWords], h6⟩
    · exact ⟨("year", .year), by simp [unitWords], h7⟩
    · simp at h
  · rintro ⟨p, hp, hpre⟩
    unfold matchUnit
    split_ifs with h1 h2 h3 h4 h5 h6 h7 <;> try rfl
    exfalso
    simp only [unitWords, List.mem_cons, List.not_mem_nil, or_false] at hp
    rcases hp with rfl | rfl | rfl | rfl | rfl | rfl | rfl
    · exact h1 hpre
    · exact h2 hpre
    · exact h3 hpre
    · exact h4 hpre
    · exact h5 hpre
    · exact h6 hpre
    · exact h7 hpre

/-- Generic key-membership characterization of the dict lookup. -/
theorem assocLookup_isSome {α : Type} (l : List (String × α)) (k : String) :
    (assocLookup l k).isSome = true ↔ k ∈ l.map Prod.fst := by
  induction l with
  | nil => simp [assocLookup]
  | cons p rest ih =>
    obtain ⟨k0, v⟩ := p
    by_cases h : k0 = k
    · subst h; simp [assocLookup]
    · rw [List.map_cons]
      simp only [assocLookup, if_neg h, List.mem_cons]
      rw [ih]
      constructor
      · exact Or.inr
      · rintro (rfl | hm)
        · exact absurd rfl h
        · exact hm

/-- C7 counterexample: the text 0 days parses successfully to quantity 0 —
the regex digit group accepts 0 and the code never checks positivity — so a
successful parse does not guarantee a positive quantity as the claim
states. -/
theorem C7_zero_quantity_counterexample :
    parse_timeframe "0 days" = some (0, .day) ∧ ¬ (0 : Nat) > 0 := by decide

/-- C7 amended: parse_timeframe succeeds exactly when a PREFIX of the
stripped, lowercased text matches digits, optional whitespace, then a unit
alternative (so trailing text is accepted and the digit run, which fixes
the returned quantity, may be the single digit 0); the returned unit is by
construction one of the six canonical units.  Presets are handled by the
separate get_timeframe_config, which succeeds exactly when the uppercased,
stripped text is in the fixed preset vocabulary; no code path combines the
two grammars into one resolver. -/
theorem C7_parse_prefix_grammar (s : String) :
    ((parse_timeframe s).isSome = true ↔ FreeformPrefixMatch s) ∧
    (∀ ytd, isOkResult (get_timeframe_config ytd s) = true ↔
      s.toUpper.trim ∈ ["1D", "1W", "1M", "3M", "6M", "YTD", "3Y", "5Y", "7Y"]) := by
  constructor
  · constructor
    · intro h
      rw [parse_timeframe] at h
      by_cases hds : (normalizeTf s).takeWhile Char.isDigit = []
      · rw [if_pos hds] at h; simp at h
      · rw [if_neg hds] at h
        rcases hmu : matchUnit (((normalizeTf s).dropWhile Char.isDigit).dropWhile
            Char.isWhitespace) with _ | u
        · rw [hmu] at h; simp at h
        · obtain ⟨p, hp, hpre⟩ := (matchUnit_isSome_iff _).mp (by rw [hmu]; rfl)
          obtain ⟨t, ht⟩ := List.isPrefixOf_iff_prefix.mp hpre
          refine ⟨(normalizeTf s).takeWhile Char.isDigit,
            ((normalizeTf s).dropWhile Char.isDigit).takeWhile Char.isWhitespace,
            t, p, hp, ?_, hds, fun c hc => List.mem_takeWhile_imp hc,
            fun c hc => List.mem_takeWhile_imp hc⟩
          conv_lhs => rw [← List.takeWhile_append_dropWhile Char.isDigit
            ((normalizeTf s))]
          rw [List.append_assoc, List.append_assoc]
          congr 1
          conv_lhs => rw [← List.takeWhile_append_dropWhile Char.isWhitespace
            ((normalizeTf s).dropWhile Char.isDigit)]
          congr 1
          exact ht.symm
    · rintro ⟨ds, ws, r, p, hp, hsplit, hne, hdig, hws⟩
      obtain ⟨c0, rest0, hw, hcd, hcw⟩ := unitWord_head_facts hp
      have hhead1 : ∀ c, (ws ++ p.1.toList ++ r).head? = some c → c.isDigit = false := by
        intro c hc
        cases ws with
        | nil =>
          rw [List.nil_append, hw, List.cons_append, List.head?_cons] at hc
          obtain rfl := Option.some.inj hc
          exact hcd
        | cons a as =>
          rw [List.cons_append, List.cons_append, List.head?_cons] at hc
          obtain rfl := Option.some.inj hc
          exact not_digit_of_whitespace (hws a (List.mem_cons_self a as))
      have hhead2 : ∀ c, (p.1.toList ++ r).head? = some c → c.isWhitespace = false := by
        intro c hc
        rw [hw, List.cons_append, List.head?_cons] at hc
        obtain rfl := Option.some.inj hc
        exact hcw
      have hsplit1 := takeWhile_dropWhile_split Char.isDigit ds
        (ws ++ p.1.toList ++ r) hdig (by simpa using hhead1)
      have hsplit2 := takeWhile_dropWhile_split Char.isWhitespace ws
        (p.1.toList ++ r) hws hhead2
      have hl : (normalizeTf s) = ds ++ (ws ++ p.1.toList ++ r) := by
        rw [hsplit]; simp [List.append_assoc]
      have htake : (normalizeTf s).takeWhile Char.isDigit = ds := by
        rw [hl]; exact hsplit1.1
      have hdrop : (normalizeTf s).dropWhile Char.isDigit =
          ws ++ p.1.toList ++ r := by
        rw [hl]; exact hsplit1.2
      have hdrop2 : ((normalizeTf s).dropWhile Char.isDigit).dropWhile
          Char.isWhitespace = p.1.toList ++ r := by
        rw [hdrop, List.append_assoc]; exact hsplit2.2
      have hmu : (matchUnit (((normalizeTf s).dropWhile Char.isDigit).dropWhile
          Char.isWhitespace)).isSome = true := by
        rw [hdrop2]
        exact (matchUnit_isSome_iff _).mpr
          ⟨p, hp, List.isPrefixOf_iff_prefix.mpr (List.prefix_append _ _)⟩
      rw [parse_timeframe, if_neg (by rw [htake]; exact hne)]
      rcases hval : matchUnit (((normalizeTf s).dropWhile Char.isDigit).dropWhile
          Char.isWhitespace) with _ | u
      · rw [hval] at hmu; simp at hmu
      · rfl
  · intro ytd
    have hform : isOkResult (get_timeframe_config ytd s) =
        (assocLookup (preset_configs ytd) (s.toUpper.trim)).isSome := by
      rcases hx : assocLookup (preset_configs ytd) (s.toUpper.trim) with _ | c
      · simp [get_timeframe_config, hx, isOkResult]
      · simp [get_timeframe_config, hx, isOkResult]
    rw [hform, assocLookup_isSome]
    have hkeys : (preset_configs ytd).map Prod.fst =
        ["1D", "1W", "1M", "3M", "6M", "YTD", "3Y", "5Y", "7Y"] := rfl
    rw [hkeys]

end DataService
